import Mathlib

/-!
Verification development for the GeminiPdfSummarizer repository.

The JavaScript source is shallowly embedded: each network-facing method of
`GeminiClient` (src/js/api/gemini.js) becomes a pure Lean function from the
responses it would receive to the value it returns or the error message it
throws, together with an explicit trace of the observable client events
(requests issued, delays, progress callbacks).  The orchestrator
(`PDFSummarizerApp.handleSummarize` in src/js/app.js) and the UI state
transitions (src/js/ui/uploadUI.js) are embedded the same way.  JavaScript
truthiness on optional strings and the `a || b` idiom are modelled
explicitly.
-/

/-- JavaScript truthiness of an optional string: `undefined`/`null` and the
empty string are falsy, every other string is truthy. -/
def jsTruthy : Option String → Bool
  | none => false
  | some s => s ≠ ""

/-- The JavaScript expression `a || b` on optional strings: yields `a` when
`a` is truthy, otherwise `b`. -/
def jsStrOr (a b : Option String) : Option String :=
  match a with
  | some s => if s = "" then b else some s
  | none => b

/-- The JavaScript expression `a || fallback` where `fallback` is a plain
string, as used for error-message defaults. -/
def jsStrOrDefault (a : Option String) (fallback : String) : String :=
  match a with
  | some s => if s = "" then fallback else s
  | none => fallback

/-- The JavaScript `String.prototype.trim()`: strip leading and trailing
whitespace (modelled with `Char.isWhitespace`), written over the character
list so that it evaluates by kernel reduction. -/
def strTrim (s : String) : String :=
  ⟨((s.data.dropWhile Char.isWhitespace).reverse.dropWhile Char.isWhitespace).reverse⟩

/-- The nested `file` object inside a file-status response
(`status.file?.state`). -/
structure FileInner where
  state : Option String
deriving DecidableEq, Repr

/-- One response of the file-status endpoint, as consumed by
`GeminiClient.waitForFileProcessing`: it may carry `state` at top level or
nested under `file`. -/
structure FileStatus where
  state : Option String
  file : Option FileInner
deriving DecidableEq, Repr

/-- `const getState = (status) => status.state || status.file?.state;`
(gemini.js line 130). -/
def getState (status : FileStatus) : Option String :=
  jsStrOr status.state (status.file.bind FileInner.state)

/-- Observable events of a `GeminiClient` run: requests to the three
endpoints, the polling sleep (with its duration in milliseconds), and the
progress-callback invocation with the state it is passed. -/
inductive ClientEvent where
  | uploadRequest
  | statusRequest
  | statusCallback (state : String)
  | delay (ms : Nat)
  | genRequest
deriving DecidableEq, Repr

/-- The polling loop of `GeminiClient.waitForFileProcessing`
(gemini.js lines 132-146), run over the successive responses of the
status endpoint.  Input: whether an `onStatusUpdate` callback was supplied,
and the list of status responses the endpoint will return (first element is
the response to the initial `getFileStatus` call).  Output: the trace of
events after the first response arrives, and `some` result once the loop
terminates (`none` when the response list is exhausted while still
`PROCESSING`, i.e. the next poll never returns).  The thrown
`'File processing failed'` error is the `Except.error` case. -/
def pollLoop (hasCallback : Bool) : List FileStatus → List ClientEvent × Option (Except String FileStatus)
  | [] => ([], none)
  | s :: rest =>
    if getState s = some "PROCESSING" then
      let evs := (if hasCallback then [ClientEvent.statusCallback "PROCESSING"] else []) ++
        [ClientEvent.delay 5000, ClientEvent.statusRequest]
      let r := pollLoop hasCallback rest
      (evs ++ r.1, r.2)
    else if getState s = some "FAILED" then
      ([], some (Except.error "File processing failed"))
    else
      ([], some (Except.ok s))

/-- `GeminiClient.waitForFileProcessing` (gemini.js lines 126-147): issues
the initial status request, then runs the polling loop. -/
def waitForFileProcessing (hasCallback : Bool) (statuses : List FileStatus) :
    List ClientEvent × Option (Except String FileStatus) :=
  let r := pollLoop hasCallback statuses
  (ClientEvent.statusRequest :: r.1, r.2)

/-- One part of a generation-response candidate's content. -/
structure GenPart where
  text : Option String
deriving DecidableEq, Repr

/-- The `content` object of a generation-response candidate. -/
structure GenContent where
  parts : List GenPart
deriving DecidableEq, Repr

/-- One candidate of a generation response. -/
structure GenCandidate where
  content : Option GenContent
deriving DecidableEq, Repr

/-- A parsed HTTP-success body of the content-generation endpoint. -/
structure GenResponse where
  candidates : Option (List GenCandidate)
deriving DecidableEq, Repr

/-- Response handling of `GeminiClient.generateSummary` on an HTTP-success
body (gemini.js lines 186-195): if `result.candidates && result.candidates[0]
&& result.candidates[0].content` (an array is truthy even when empty, an
absent element or field is falsy), filter the parts with truthy `text`, map
to their `text`, and join with newlines; otherwise throw
`'No summary generated'`. -/
def generateSummaryExtract (result : GenResponse) : Except String String :=
  match result.candidates with
  | some (c :: _) =>
    match c.content with
    | some content =>
      let textParts := (content.parts.filter fun p => jsTruthy p.text).filterMap fun p => p.text
      Except.ok (String.intercalate "\n" textParts)
    | none => Except.error "No summary generated"
  | some [] => Except.error "No summary generated"
  | none => Except.error "No summary generated"

/-- Response handling of `GeminiClient.generateSummaryFromBase64` on an
HTTP-success body (gemini.js lines 241-250); the source duplicates the
logic of `generateSummary` verbatim, and this definition transcribes that
duplicate block, independently of `generateSummaryExtract`. -/
def generateSummaryFromBase64Extract (result : GenResponse) : Except String String :=
  match result.candidates with
  | some (c :: _) =>
    match c.content with
    | some content =>
      let textParts := (content.parts.filter fun p => jsTruthy p.text).filterMap fun p => p.text
      Except.ok (String.intercalate "\n" textParts)
    | none => Except.error "No summary generated"
  | some [] => Except.error "No summary generated"
  | none => Except.error "No summary generated"

/-- The `error` object of a structured API error body (`error.message`). -/
structure ErrorInfo where
  message : Option String
deriving DecidableEq, Repr

/-- A parsed JSON body as read by `uploadFile`: the error branch reads
`error.error?.message`; the success branch returns the whole parsed object,
of which the upload record's `name` is the part later used. -/
structure JsonDoc where
  error : Option ErrorInfo
  name : Option String
deriving DecidableEq, Repr

/-- An HTTP response as observed by `uploadFile` after `response.text()`:
`ok` flag, numeric status, status text, and raw body text. -/
structure HttpTextResponse where
  ok : Bool
  status : Nat
  statusText : String
  body : String
deriving DecidableEq, Repr

/-- `GeminiClient.uploadFile` response handling (gemini.js lines 37-66),
with `JSON.parse` supplied as an environment function `parse` returning
`none` on a parse failure.  Order of checks follows the source: non-`ok`
responses throw a transport error (message from the structured error body
when parsable); an `ok` response with an empty, whitespace-only, or
literal-empty-object body throws the empty-response error before any parse
of the success body; an unparsable success body throws
`'Invalid JSON response: ...'`; otherwise the parsed record is returned. -/
def uploadFile (parse : String → Option JsonDoc) (resp : HttpTextResponse) : Except String JsonDoc :=
  if !resp.ok then
    match parse resp.body with
    | none =>
      Except.error ("Failed to upload file: " ++ toString resp.status ++ " " ++ resp.statusText)
    | some err =>
      Except.error (jsStrOrDefault (err.error.bind ErrorInfo.message)
        ("Failed to upload file: " ++ toString resp.status))
  else if resp.body = "" || strTrim resp.body = "" || resp.body = "\x7b\x7d" then
    Except.error "File upload returned empty response. Trying alternative method..."
  else
    match parse resp.body with
    | none => Except.error ("Invalid JSON response: " ++ resp.body)
    | some result => Except.ok result

/-- Modelled from the spec: the Strategy A driver (upload, then poll, then
generate) is not composed anywhere under src — the orchestrator uses the
inline-base64 strategy — so the sequential composition follows spec
section 4.2 Strategy A steps 1-4, with each step's behavior taken from the
`GeminiClient` methods above.  An error thrown by a step propagates and
skips the later steps, as an awaited rejection does in the source. -/
def strategyA (parse : String → Option JsonDoc) (uploadResp : HttpTextResponse)
    (hasCallback : Bool) (statuses : List FileStatus) (genResp : GenResponse) :
    List ClientEvent × Option (Except String String) :=
  match uploadFile parse uploadResp with
  | Except.error e => ([ClientEvent.uploadRequest], some (Except.error e))
  | Except.ok _ =>
    let pr := waitForFileProcessing hasCallback statuses
    match pr.2 with
    | none => (ClientEvent.uploadRequest :: pr.1, none)
    | some (Except.error e) => (ClientEvent.uploadRequest :: pr.1, some (Except.error e))
    | some (Except.ok _) =>
      (ClientEvent.uploadRequest :: pr.1 ++ [ClientEvent.genRequest],
        some (generateSummaryExtract genResp))

/-- A selected browser `File`: display name, declared MIME type, byte
length. -/
structure JsFile where
  name : String
  type : String
  size : Nat
deriving DecidableEq, Repr

/-- `FileHandler.isValidPDF` (fileHandler.js lines 12-14):
`file && file.type === 'application/pdf'` — a null file is falsy and the
whole expression is then falsy. -/
def isValidPDF : Option JsFile → Bool
  | none => false
  | some f => f.type = "application/pdf"

/-- `FileHandler.isValidFileSize` (fileHandler.js lines 49-52), default
`maxSizeMB = 20`. -/
def isValidFileSize (file : JsFile) (maxSizeMB : Nat := 20) : Bool :=
  let maxSizeBytes := maxSizeMB * 1024 * 1024
  decide (file.size ≤ maxSizeBytes)

/-- The result of `GeminiClient.uploadFileBase64` (gemini.js lines 74-88):
name, MIME type and base64 payload of the selected file. -/
structure Base64FileData where
  name : String
  mimeType : String
  data : String
deriving DecidableEq, Repr

/-- The `GeminiClient` methods the orchestrator could invoke. -/
inductive ClientMethod where
  | uploadFile
  | uploadFileBase64
  | getFileStatus
  | waitForFileProcessing
  | generateSummary
  | generateSummaryFromBase64
deriving DecidableEq, Repr

/-- Observable events of one `handleSummarize` run: presentation-layer
calls and client-method invocations. -/
inductive AppEvent where
  | showError (msg : String)
  | showLoading
  | hideLoading
  | showSummary (text : String)
  | call (m : ClientMethod)
deriving DecidableEq, Repr

/-- `error.message || 'An unexpected error occurred'` (app.js line 66). -/
def jsErrMessage (msg : String) : String :=
  if msg = "" then "An unexpected error occurred" else msg

/-- `PDFSummarizerApp.handleSummarize` (app.js lines 28-68) as a trace of
events, given the selected file, the API key, and the outcomes of the two
client steps (`uploadFileBase64`, then `generateSummaryFromBase64`; an
`Except.error` is a rejection whose message is carried).  Validation
failures return after a single `showError`; past validation, the try block
shows loading, runs the two client calls in order, and the catch block
hides loading and shows the error message. -/
def handleSummarize (file : Option JsFile) (apiKey : Option String)
    (uploadOutcome : Except String Base64FileData)
    (genOutcome : Except String String) : List AppEvent :=
  if file.isNone || !(jsTruthy apiKey) then
    [AppEvent.showError "Please select a PDF file and enter your API key"]
  else if !(isValidPDF file) then
    [AppEvent.showError "Please select a valid PDF file"]
  else if !(match file with | some f => isValidFileSize f | none => false) then
    [AppEvent.showError "File size exceeds 20MB limit"]
  else
    AppEvent.showLoading :: AppEvent.call ClientMethod.uploadFileBase64 ::
      (match uploadOutcome with
      | Except.error e =>
        [AppEvent.hideLoading, AppEvent.showError ("Error: " ++ jsErrMessage e)]
      | Except.ok _ =>
        AppEvent.call ClientMethod.generateSummaryFromBase64 ::
          (match genOutcome with
          | Except.error e =>
            [AppEvent.hideLoading, AppEvent.showError ("Error: " ++ jsErrMessage e)]
          | Except.ok summary =>
            [AppEvent.hideLoading, AppEvent.showSummary summary]))

/-- The UI state toggled by `UploadUI` (uploadUI.js): visibility of the
loading, result and error sections, the summarize button's disabled flag,
and the displayed summary and error texts. -/
structure UIState where
  loadingVisible : Bool
  resultVisible : Bool
  errorVisible : Bool
  summarizeDisabled : Bool
  summaryText : String
  errorText : String
deriving DecidableEq, Repr

/-- `UploadUI.updateUI` effect on the summarize button (uploadUI.js lines
111-123): `summarizeBtn.disabled = !(hasFile && hasApiKey)`. -/
def updateUI (hasFile hasApiKey : Bool) (s : UIState) : UIState :=
  { s with summarizeDisabled := !(hasFile && hasApiKey) }

/-- `hasApiKey` as computed inside `updateUI` (uploadUI.js line 113):
`!!this.apiKey && this.apiKey.trim().length > 0`. -/
def uiHasApiKey : Option String → Bool
  | none => false
  | some s => s ≠ "" && (strTrim s).length > 0

/-- Effect of one presentation-layer call on the UI state (uploadUI.js
lines 128-162): `showLoading` shows the spinner, hides result and error,
and disables the button; `hideLoading` hides the spinner, re-enables the
button, then runs `updateUI`; `showSummary` and `showError` toggle the
result and error sections; client calls do not touch the UI. -/
def applyEvent (hasFile hasApiKey : Bool) (s : UIState) : AppEvent → UIState
  | AppEvent.showLoading =>
    { s with
      loadingVisible := true
      resultVisible := false
      errorVisible := false
      summarizeDisabled := true }
  | AppEvent.hideLoading =>
    updateUI hasFile hasApiKey { s with loadingVisible := false, summarizeDisabled := false }
  | AppEvent.showSummary t =>
    { s with summaryText := t, resultVisible := true, errorVisible := false }
  | AppEvent.showError m =>
    { s with errorText := m, errorVisible := true, resultVisible := false }
  | AppEvent.call _ => s

/-- Fold a trace of events over the UI state; `hasFile` and `hasApiKey`
reflect the selected file and stored key, which do not change during a
`handleSummarize` run. -/
def runUI (hasFile hasApiKey : Bool) (s : UIState) (evs : List AppEvent) : UIState :=
  evs.foldl (applyEvent hasFile hasApiKey) s

/-- An event is an invocation of a `GeminiClient` method. -/
def isClientCall : AppEvent → Bool
  | AppEvent.call _ => true
  | _ => false

/-- An event is not an invocation of the direct-URI (upload/poll/URI
generation) client path. -/
def directPathFree : AppEvent → Bool
  | AppEvent.call ClientMethod.uploadFile => false
  | AppEvent.call ClientMethod.getFileStatus => false
  | AppEvent.call ClientMethod.waitForFileProcessing => false
  | AppEvent.call ClientMethod.generateSummary => false
  | _ => true

/-- C8: the size check `isValidFileSize` accepts a file exactly when its
byte length is at most `maxSizeMB * 1024 * 1024`; the boundary is
inclusive, and the default limit is exactly 20 * 2 ^ 20 bytes. -/
theorem isValidFileSize_boundary :
    ∀ (f : JsFile) (maxSizeMB : Nat),
      (isValidFileSize f maxSizeMB = true ↔ f.size ≤ maxSizeMB * 1024 * 1024) ∧
      (isValidFileSize f = true ↔ f.size ≤ 20 * 2 ^ 20) ∧
      isValidFileSize { name := "d.pdf", type := "application/pdf", size := 20 * 2 ^ 20 } = true ∧
      isValidFileSize { name := "d.pdf", type := "application/pdf", size := 20 * 2 ^ 20 + 1 } = false := by
  intro f m
  refine ⟨by simp [isValidFileSize], ?_, by decide, by decide⟩
  simp [isValidFileSize]

/-- C7: the direct-URI and inline-base64 strategies share one output
contract: on every HTTP-success generation body both extractors return the
identical result, and that result is either a summary string or the
`'No summary generated'` failure. -/
theorem strategies_same_output_contract (r : GenResponse) :
    generateSummaryExtract r = generateSummaryFromBase64Extract r ∧
    ((∃ s, generateSummaryExtract r = Except.ok s) ∨
      generateSummaryExtract r = Except.error "No summary generated") := by
  rcases r with ⟨cands⟩
  rcases cands with _ | cs
  · simp [generateSummaryExtract, generateSummaryFromBase64Extract]
  · rcases cs with _ | ⟨c, rest⟩
    · simp [generateSummaryExtract, generateSummaryFromBase64Extract]
    · rcases c with ⟨content⟩
      rcases content with _ | ct
      · simp [generateSummaryExtract, generateSummaryFromBase64Extract]
      · exact ⟨rfl, Or.inl ⟨_, rfl⟩⟩

/-- C4: on a successful generation response (first candidate present with
content), the extracted summary is the `text` fields of the parts whose
`text` is truthy, in order, joined by newlines; in particular parts
`A`, `B` give `"A\nB"`. -/
theorem generateSummary_joins_text_parts
    (r : GenResponse) (c : GenCandidate) (rest : List GenCandidate) (content : GenContent)
    (hc : r.candidates = some (c :: rest)) (hcont : c.content = some content) :
    generateSummaryExtract r =
      Except.ok (String.intercalate "\n"
        ((content.parts.filter fun p => jsTruthy p.text).filterMap fun p => p.text)) ∧
    generateSummaryExtract ⟨some [⟨some ⟨[⟨some "A"⟩, ⟨some "B"⟩]⟩⟩]⟩ = Except.ok "A\nB" := by
  constructor
  · rcases r with ⟨cands⟩
    simp only at hc
    subst hc
    simp [generateSummaryExtract, hcont]
  · rfl

/-- C4 witness: the join theorem applied to the concrete two-part
response. -/
theorem generateSummary_joins_text_parts_witness :
    generateSummaryExtract ⟨some [⟨some ⟨[⟨some "A"⟩, ⟨some "B"⟩]⟩⟩]⟩ =
      Except.ok (String.intercalate "\n"
        (((GenContent.mk [⟨some "A"⟩, ⟨some "B"⟩]).parts.filter fun p => jsTruthy p.text).filterMap
          fun p => p.text)) ∧
    generateSummaryExtract ⟨some [⟨some ⟨[⟨some "A"⟩, ⟨some "B"⟩]⟩⟩]⟩ = Except.ok "A\nB" :=
  generateSummary_joins_text_parts ⟨some [⟨some ⟨[⟨some "A"⟩, ⟨some "B"⟩]⟩⟩]⟩
    ⟨some ⟨[⟨some "A"⟩, ⟨some "B"⟩]⟩⟩ [] ⟨[⟨some "A"⟩, ⟨some "B"⟩]⟩ rfl rfl

/-- C3 counterexample: an HTTP-success generation body whose first
candidate has content with an empty parts list makes the extractor return
the empty summary string, not the `'No summary generated'` failure the
claim requires. -/
theorem noContent_empty_parts_counterexample :
    generateSummaryFromBase64Extract ⟨some [⟨some ⟨[]⟩⟩]⟩ = Except.ok "" ∧
    generateSummaryFromBase64Extract ⟨some [⟨some ⟨[]⟩⟩]⟩ ≠ Except.error "No summary generated" ∧
    generateSummaryExtract ⟨some [⟨some ⟨[]⟩⟩]⟩ = Except.ok "" := by
  refine ⟨rfl, by simp [generateSummaryFromBase64Extract], rfl⟩

/-- C3 amended: the client fails with `'No summary generated'` exactly
when the candidates array is absent, the candidates list is empty, or the
first candidate lacks content; in every other case (content present, even
with no text-bearing part) a summary string is returned. -/
theorem generateSummary_noContent_iff (r : GenResponse) :
    (generateSummaryFromBase64Extract r = Except.error "No summary generated" ↔
      r.candidates = none ∨ r.candidates = some [] ∨
      ∃ c rest, r.candidates = some (c :: rest) ∧ c.content = none) ∧
    ((∃ s, generateSummaryFromBase64Extract r = Except.ok s) ∨
      generateSummaryFromBase64Extract r = Except.error "No summary generated") := by
  rcases r with ⟨cands⟩
  rcases cands with _ | cs
  · simp [generateSummaryFromBase64Extract]
  · rcases cs with _ | ⟨c, rest⟩
    · simp [generateSummaryFromBase64Extract]
    · rcases c with ⟨content⟩
      rcases content with _ | ct
      · simp [generateSummaryFromBase64Extract]
      · simp [generateSummaryFromBase64Extract]

/-- C1: on a polling run observing states PROCESSING, PROCESSING, ACTIVE,
`waitForFileProcessing` sleeps the fixed 5000 ms delay exactly twice (so
exactly 2 delayed re-polls, 3 status requests in all), invokes the progress
callback exactly twice, each time with "PROCESSING", when one is supplied
(and never when not), and then proceeds with the active record. -/
theorem waitForFileProcessing_two_repolls
    (cb : Bool) (s1 s2 s3 : FileStatus)
    (h1 : getState s1 = some "PROCESSING")
    (h2 : getState s2 = some "PROCESSING")
    (h3 : getState s3 = some "ACTIVE") :
    (waitForFileProcessing cb [s1, s2, s3]).1.count (ClientEvent.delay 5000) = 2 ∧
    (waitForFileProcessing cb [s1, s2, s3]).1.count ClientEvent.statusRequest = 3 ∧
    ((waitForFileProcessing cb [s1, s2, s3]).1.filter fun e =>
        match e with
        | ClientEvent.statusCallback _ => true
        | _ => false) =
      (if cb then
        [ClientEvent.statusCallback "PROCESSING", ClientEvent.statusCallback "PROCESSING"]
      else []) ∧
    (waitForFileProcessing cb [s1, s2, s3]).2 = some (Except.ok s3) := by
  cases cb <;>
    simp [waitForFileProcessing, pollLoop, h1, h2, h3, List.count_cons, List.count_append]

/-- C1 witness: the re-poll theorem applied to three concrete status
responses with a callback supplied. -/
theorem waitForFileProcessing_two_repolls_witness :
    (waitForFileProcessing true
      [⟨some "PROCESSING", none⟩, ⟨some "PROCESSING", none⟩, ⟨some "ACTIVE", none⟩]).1.count
        (ClientEvent.delay 5000) = 2 ∧
    (waitForFileProcessing true
      [⟨some "PROCESSING", none⟩, ⟨some "PROCESSING", none⟩, ⟨some "ACTIVE", none⟩]).1.count
        ClientEvent.statusRequest = 3 ∧
    ((waitForFileProcessing true
      [⟨some "PROCESSING", none⟩, ⟨some "PROCESSING", none⟩, ⟨some "ACTIVE", none⟩]).1.filter
        fun e =>
          match e with
          | ClientEvent.statusCallback _ => true
          | _ => false) =
      (if true then
        [ClientEvent.statusCallback "PROCESSING", ClientEvent.statusCallback "PROCESSING"]
      else []) ∧
    (waitForFileProcessing true
      [⟨some "PROCESSING", none⟩, ⟨some "PROCESSING", none⟩, ⟨some "ACTIVE", none⟩]).2 =
      some (Except.ok ⟨some "ACTIVE", none⟩) :=
  waitForFileProcessing_two_repolls true ⟨some "PROCESSING", none⟩ ⟨some "PROCESSING", none⟩
    ⟨some "ACTIVE", none⟩ (by decide) (by decide) (by decide)

/-- Helper: the polling loop never emits a generation request. -/
theorem pollLoop_no_genRequest (cb : Bool) (ss : List FileStatus) :
    ClientEvent.genRequest ∉ (pollLoop cb ss).1 := by
  induction ss with
  | nil => simp [pollLoop]
  | cons s rest ih =>
    by_cases h : getState s = some "PROCESSING"
    · cases cb <;> simp [pollLoop, h] <;> simpa using ih
    · by_cases h2 : getState s = some "FAILED" <;> simp [pollLoop, h, h2]

/-- Helper: a run of the polling loop whose observed states are PROCESSING
until a final FAILED response ends in the `'File processing failed'`
error. -/
theorem pollLoop_processing_then_failed (cb : Bool) (f : FileStatus)
    (hf : getState f = some "FAILED") :
    ∀ ps : List FileStatus, (∀ p ∈ ps, getState p = some "PROCESSING") →
      (pollLoop cb (ps ++ [f])).2 = some (Except.error "File processing failed") := by
  intro ps
  induction ps with
  | nil =>
    intro _
    have : ¬ getState f = some "PROCESSING" := by simp [hf]
    simp [pollLoop, this, hf]
  | cons p ps ih =>
    intro hall
    have hp : getState p = some "PROCESSING" := hall p (by simp)
    simp only [List.cons_append, pollLoop, hp, if_pos]
    exact ih fun q hq => hall q (by simp [hq])

/-- C2: when the upload step succeeded and the observed status sequence is
PROCESSING-only until a final FAILED response, the Strategy A workflow
fails with the `'File processing failed'` error and its trace contains no
request to the content-generation endpoint. -/
theorem strategyA_failed_never_generates
    (parse : String → Option JsonDoc) (uresp : HttpTextResponse) (record : JsonDoc)
    (cb : Bool) (ps : List FileStatus) (f : FileStatus) (genResp : GenResponse)
    (hup : uploadFile parse uresp = Except.ok record)
    (hps : ∀ p ∈ ps, getState p = some "PROCESSING")
    (hf : getState f = some "FAILED") :
    (strategyA parse uresp cb (ps ++ [f]) genResp).2 =
      some (Except.error "File processing failed") ∧
    ClientEvent.genRequest ∉ (strategyA parse uresp cb (ps ++ [f]) genResp).1 := by
  have h2 := pollLoop_processing_then_failed cb f hf ps hps
  have hng := pollLoop_no_genRequest cb (ps ++ [f])
  simp [strategyA, hup, waitForFileProcessing, h2, hng]

/-- C2 witness: the theorem applied to a concrete successful upload, one
PROCESSING response, then a FAILED response. -/
theorem strategyA_failed_never_generates_witness :
    (strategyA (fun _ => some ⟨none, none⟩) ⟨true, 200, "OK", "x"⟩ true
      ([⟨some "PROCESSING", none⟩] ++ [⟨some "FAILED", none⟩]) ⟨none⟩).2 =
      some (Except.error "File processing failed") ∧
    ClientEvent.genRequest ∉
      (strategyA (fun _ => some ⟨none, none⟩) ⟨true, 200, "OK", "x"⟩ true
        ([⟨some "PROCESSING", none⟩] ++ [⟨some "FAILED", none⟩]) ⟨none⟩).1 :=
  strategyA_failed_never_generates (fun _ => some ⟨none, none⟩) ⟨true, 200, "OK", "x"⟩
    ⟨none, none⟩ true [⟨some "PROCESSING", none⟩] ⟨some "FAILED", none⟩ ⟨none⟩
    rfl (by decide) (by decide)

/-- C5: an ingestion response with HTTP success but an empty (or
whitespace-only, or literal empty-object) body makes `uploadFile` fail with
the empty-response error instead of returning an upload record, and the
Strategy A workflow then stops at the upload step: its trace is the single
upload request, so the status-polling endpoint is never contacted. -/
theorem uploadFile_empty_body_no_polling
    (parse : String → Option JsonDoc) (resp : HttpTextResponse)
    (hok : resp.ok = true)
    (hbody : strTrim resp.body = "" ∨ resp.body = "\x7b\x7d") :
    uploadFile parse resp =
      Except.error "File upload returned empty response. Trying alternative method..." ∧
    ∀ (cb : Bool) (statuses : List FileStatus) (genResp : GenResponse),
      (strategyA parse resp cb statuses genResp).1 = [ClientEvent.uploadRequest] ∧
      ClientEvent.statusRequest ∉ (strategyA parse resp cb statuses genResp).1 ∧
      (strategyA parse resp cb statuses genResp).2 =
        some (Except.error
          "File upload returned empty response. Trying alternative method...") := by
  have hcond : (resp.body = "" || strTrim resp.body = "" || resp.body = "\x7b\x7d") = true := by
    rcases hbody with h | h <;> simp [h]
  have hu : uploadFile parse resp =
      Except.error "File upload returned empty response. Trying alternative method..." := by
    simp only [uploadFile, hok]
    simp [hcond]
  exact ⟨hu, fun cb statuses genResp => by simp [strategyA, hu]⟩

/-- C5 witness: the theorem applied to a concrete HTTP-success response
with the empty body. -/
theorem uploadFile_empty_body_no_polling_witness :
    uploadFile (fun _ => none) ⟨true, 200, "OK", ""⟩ =
      Except.error "File upload returned empty response. Trying alternative method..." ∧
    ∀ (cb : Bool) (statuses : List FileStatus) (genResp : GenResponse),
      (strategyA (fun _ => none) ⟨true, 200, "OK", ""⟩ cb statuses genResp).1 =
        [ClientEvent.uploadRequest] ∧
      ClientEvent.statusRequest ∉
        (strategyA (fun _ => none) ⟨true, 200, "OK", ""⟩ cb statuses genResp).1 ∧
      (strategyA (fun _ => none) ⟨true, 200, "OK", ""⟩ cb statuses genResp).2 =
        some (Except.error
          "File upload returned empty response. Trying alternative method...") :=
  uploadFile_empty_body_no_polling (fun _ => none) ⟨true, 200, "OK", ""⟩ rfl
    (Or.inl rfl)

/-- C6: when the file is missing, the credential is missing (or the empty
string), the declared type is not PDF, or the byte length exceeds the
limit, `handleSummarize` reports a single descriptive error and ends: its
trace is exactly one `showError`, so no client method is invoked and no
loading (hence no network activity) ever starts. -/
theorem handleSummarize_validation_failfast
    (file : Option JsFile) (apiKey : Option String)
    (u : Except String Base64FileData) (g : Except String String)
    (h : file = none ∨ jsTruthy apiKey = false ∨
      (∃ f, file = some f ∧ isValidPDF (some f) = false) ∨
      (∃ f, file = some f ∧ isValidFileSize f = false)) :
    (∃ m, handleSummarize file apiKey u g = [AppEvent.showError m]) ∧
    (handleSummarize file apiKey u g).all (fun e => !isClientCall e) = true ∧
    AppEvent.showLoading ∉ handleSummarize file apiKey u g := by
  have htrace : ∃ m, handleSummarize file apiKey u g = [AppEvent.showError m] := by
    rcases file with _ | f
    · exact ⟨"Please select a PDF file and enter your API key", by simp [handleSummarize]⟩
    · by_cases hk : jsTruthy apiKey = true
      · by_cases hpdf : isValidPDF (some f) = true
        · by_cases hsz : isValidFileSize f = true
          · exfalso
            rcases h with h | h | ⟨f', hf', hp⟩ | ⟨f', hf', hs⟩
            · exact Option.noConfusion h
            · rw [hk] at h; exact Bool.noConfusion h
            · rw [Option.some.injEq] at hf'; rw [← hf', hpdf] at hp; exact Bool.noConfusion hp
            · rw [Option.some.injEq] at hf'; rw [← hf', hsz] at hs; exact Bool.noConfusion hs
          · exact ⟨"File size exceeds 20MB limit",
              by simp [handleSummarize, hk, hpdf, Bool.of_not_eq_true hsz]⟩
        · exact ⟨"Please select a valid PDF file",
            by simp [handleSummarize, hk, Bool.of_not_eq_true hpdf]⟩
      · exact ⟨"Please select a PDF file and enter your API key",
          by simp [handleSummarize, Bool.of_not_eq_true hk]⟩
  obtain ⟨m, hm⟩ := htrace
  refine ⟨⟨m, hm⟩, ?_, ?_⟩ <;> rw [hm] <;> simp [isClientCall]

/-- C6 witness: the fail-fast theorem applied to a run with no selected
file. -/
theorem handleSummarize_validation_failfast_witness :
    (∃ m, handleSummarize none (some "key") (Except.ok ⟨"d.pdf", "application/pdf", "QUJD"⟩)
      (Except.ok "sum") = [AppEvent.showError m]) ∧
    (handleSummarize none (some "key") (Except.ok ⟨"d.pdf", "application/pdf", "QUJD"⟩)
      (Except.ok "sum")).all (fun e => !isClientCall e) = true ∧
    AppEvent.showLoading ∉ handleSummarize none (some "key")
      (Except.ok ⟨"d.pdf", "application/pdf", "QUJD"⟩) (Except.ok "sum") :=
  handleSummarize_validation_failfast none (some "key")
    (Except.ok ⟨"d.pdf", "application/pdf", "QUJD"⟩) (Except.ok "sum") (Or.inl rfl)

/-- C10: a `handleSummarize` run, whatever file, credential and client
outcomes it is given, never invokes the direct-URI client path
(`uploadFile`, `getFileStatus`, `waitForFileProcessing`, `generateSummary`):
every event of its trace is direct-path-free, so the file-ingestion and
status-polling endpoints are never contacted by the workflow. -/
theorem handleSummarize_only_base64_path
    (file : Option JsFile) (apiKey : Option String)
    (u : Except String Base64FileData) (g : Except String String) :
    (handleSummarize file apiKey u g).all directPathFree = true ∧
    (handleSummarize file apiKey u g).count (AppEvent.call ClientMethod.uploadFileBase64) ≤ 1 ∧
    (handleSummarize file apiKey u g).count
      (AppEvent.call ClientMethod.generateSummaryFromBase64) ≤ 1 := by
  rcases u with e | d <;> rcases g with e2 | sm <;>
    simp only [handleSummarize] <;> split_ifs <;>
    simp [directPathFree, List.count_cons]

/-- C9 counterexample: a whitespace-only credential passes the
orchestrator's truthiness validation, and after a client failure the error
is shown and loading hidden — but `hideLoading`'s `updateUI` recomputes
`hasApiKey` with a trim, so the summarize trigger ends disabled, not
re-enabled as the claim states. -/
theorem handleSummarize_ws_key_counterexample :
    jsTruthy (some " ") = true ∧
    isValidPDF (some ⟨"doc.pdf", "application/pdf", 1000⟩) = true ∧
    isValidFileSize ⟨"doc.pdf", "application/pdf", 1000⟩ = true ∧
    (runUI true (uiHasApiKey (some " ")) ⟨false, false, false, false, "", ""⟩
      (handleSummarize (some ⟨"doc.pdf", "application/pdf", 1000⟩) (some " ")
        (Except.error "network down") (Except.ok "s"))).summarizeDisabled = true ∧
    (runUI true (uiHasApiKey (some " ")) ⟨false, false, false, false, "", ""⟩
      (handleSummarize (some ⟨"doc.pdf", "application/pdf", 1000⟩) (some " ")
        (Except.error "network down") (Except.ok "s"))).errorVisible = true := by
  decide

/-- C9 amended: after validation passes, any client-step failure is caught
by the run: the trace is `showLoading`, the client calls made so far,
`hideLoading`, then `showError` with the failure's message — the run
always produces this trace and never rethrows — and the resulting UI hides
loading, shows the error, and sets the summarize trigger's disabled flag
to the negation of `updateUI`'s `hasApiKey`, so the trigger is re-enabled
exactly when the credential is non-blank after trimming (always the case
when the trigger was clickable; a whitespace-only credential leaves it
disabled). -/
theorem handleSummarize_failure_recovers
    (f : JsFile) (k : String) (u : Except String Base64FileData)
    (g : Except String String) (s0 : UIState)
    (hk : jsTruthy (some k) = true)
    (hpdf : isValidPDF (some f) = true)
    (hsz : isValidFileSize f = true)
    (hfail : (∃ e, u = Except.error e) ∨ (∃ e, g = Except.error e)) :
    ∃ m pre,
      handleSummarize (some f) (some k) u g =
        AppEvent.showLoading :: (pre ++ [AppEvent.hideLoading, AppEvent.showError m]) ∧
      (runUI true (uiHasApiKey (some k)) s0
        (handleSummarize (some f) (some k) u g)).loadingVisible = false ∧
      (runUI true (uiHasApiKey (some k)) s0
        (handleSummarize (some f) (some k) u g)).errorVisible = true ∧
      (runUI true (uiHasApiKey (some k)) s0
        (handleSummarize (some f) (some k) u g)).resultVisible = false ∧
      (runUI true (uiHasApiKey (some k)) s0
        (handleSummarize (some f) (some k) u g)).errorText = m ∧
      (runUI true (uiHasApiKey (some k)) s0
        (handleSummarize (some f) (some k) u g)).summarizeDisabled =
        !(uiHasApiKey (some k)) := by
  rcases u with e | d
  · refine ⟨"Error: " ++ jsErrMessage e, [AppEvent.call ClientMethod.uploadFileBase64],
      ?_, ?_, ?_, ?_, ?_, ?_⟩ <;>
      simp [handleSummarize, hk, hpdf, hsz, runUI, applyEvent, updateUI]
  · rcases hfail with ⟨e, he⟩ | ⟨e, he⟩
    · exact absurd he (by simp)
    · subst he
      refine ⟨"Error: " ++ jsErrMessage e,
        [AppEvent.call ClientMethod.uploadFileBase64,
          AppEvent.call ClientMethod.generateSummaryFromBase64],
        ?_, ?_, ?_, ?_, ?_, ?_⟩ <;>
        simp [handleSummarize, hk, hpdf, hsz, runUI, applyEvent, updateUI]

/-- C9 witness: the recovery theorem applied to a concrete valid file, a
non-blank credential, and a failing upload step. -/
theorem handleSummarize_failure_recovers_witness :
    ∃ m pre,
      handleSummarize (some ⟨"doc.pdf", "application/pdf", 1000⟩) (some "secret")
        (Except.error "boom") (Except.ok "s") =
        AppEvent.showLoading :: (pre ++ [AppEvent.hideLoading, AppEvent.showError m]) ∧
      (runUI true (uiHasApiKey (some "secret")) ⟨false, false, false, false, "", ""⟩
        (handleSummarize (some ⟨"doc.pdf", "application/pdf", 1000⟩) (some "secret")
          (Except.error "boom") (Except.ok "s"))).loadingVisible = false ∧
      (runUI true (uiHasApiKey (some "secret")) ⟨false, false, false, false, "", ""⟩
        (handleSummarize (some ⟨"doc.pdf", "application/pdf", 1000⟩) (some "secret")
          (Except.error "boom") (Except.ok "s"))).errorVisible = true ∧
      (runUI true (uiHasApiKey (some "secret")) ⟨false, false, false, false, "", ""⟩
        (handleSummarize (some ⟨"doc.pdf", "application/pdf", 1000⟩) (some "secret")
          (Except.error "boom") (Except.ok "s"))).resultVisible = false ∧
      (runUI true (uiHasApiKey (some "secret")) ⟨false, false, false, false, "", ""⟩
        (handleSummarize (some ⟨"doc.pdf", "application/pdf", 1000⟩) (some "secret")
          (Except.error "boom") (Except.ok "s"))).errorText = m ∧
      (runUI true (uiHasApiKey (some "secret")) ⟨false, false, false, false, "", ""⟩
        (handleSummarize (some ⟨"doc.pdf", "application/pdf", 1000⟩) (some "secret")
          (Except.error "boom") (Except.ok "s"))).summarizeDisabled =
        !(uiHasApiKey (some "secret")) :=
  handleSummarize_failure_recovers ⟨"doc.pdf", "application/pdf", 1000⟩ "secret"
    (Except.error "boom") (Except.ok "s") ⟨false, false, false, false, "", ""⟩
    (by decide) (by decide) (by decide) (Or.inl ⟨"boom", rfl⟩)
